import Mathlib

/-!
Verification of the checkout / payment-reconciliation / register-session core
of the vendor e-commerce backend, as a shallow embedding in Lean.

Monetary amounts are modelled as integers (the code only selects, adds,
subtracts, multiplies and compares stored values; every claimed property is
independent of the numeric representation, so exact integer amounts stand in
for the stored floats), quantities and ids as naturals, stock as integers, JSON string maps as
association lists, and the SQLAlchemy session as an explicit
committed/current pair of database snapshots where `commit` publishes the
current snapshot and `rollback` restores the committed one.
-/

namespace Shop

/-! ## Data model: products and pricing tiers (app/models/product.py) -/

/-- Row of `product_pricing_tiers` (`ProductPricingTier` in app/models/product.py). -/
structure ProductPricingTier where
  product_id : Nat
  moq : Nat
  price : Int
deriving Repr, DecidableEq

/-- Row of `products` (`Product` in app/models/product.py), restricted to the
fields the checkout core reads.  `price` is `Option` because both resolver
code paths defend against a missing/None price. -/
structure Product where
  id : Nat
  name : String
  vendor_id : Nat
  price : Option Int
  stock : Int
deriving Repr, DecidableEq

namespace CartRouter

/-- Shallow embedding of `get_price_for_quantity` from `app/routers/cart.py`
(lines 73-94).  The `pricing_tiers` argument stands for the result of the DB
query `ORDER BY moq DESC`; the loop is `find?`, the `pricing_tiers[-1]`
fallback is `getLast?`, and the final fallback `float(getattr(product,
'price', 0))` returns the flat price, or 0 when it is absent (float(None)
raises, and the surrounding except-handler returns 0.0). -/
def get_price_for_quantity (pricing_tiers : List ProductPricingTier)
    (product_price : Option Int) (quantity : Nat) : Int :=
  match pricing_tiers.find? (fun tier => decide (tier.moq ≤ quantity)) with
  | some tier => tier.price
  | none =>
    match pricing_tiers.getLast? with
    | some tier => tier.price
    | none =>
      match product_price with
      | some p => p
      | none => 0

end CartRouter

namespace CashierRouter

/-- Shallow embedding of `get_price_for_quantity` from `app/routers/cashier.py`
(lines 86-98).  Identical scan; the final fallback is `product.price or 0`,
which maps a missing price to 0 and also maps a stored 0 to the literal 0. -/
def get_price_for_quantity (pricing_tiers : List ProductPricingTier)
    (product_price : Option Int) (quantity : Nat) : Int :=
  match pricing_tiers.find? (fun tier => decide (tier.moq ≤ quantity)) with
  | some tier => tier.price
  | none =>
    match pricing_tiers.getLast? with
    | some tier => tier.price
    | none =>
      match product_price with
      | some p => if p == 0 then 0 else p
      | none => 0

end CashierRouter

/-- The tier list as returned by the DB query: sorted by `moq` descending. -/
def MoqSortedDesc (tiers : List ProductPricingTier) : Prop :=
  List.Pairwise (fun a b => b.moq ≤ a.moq) tiers

instance (tiers : List ProductPricingTier) : Decidable (MoqSortedDesc tiers) := by
  unfold MoqSortedDesc; infer_instance

/-- In a descending-by-moq list, the first tier whose moq is below the
requested quantity has the largest qualifying moq. -/
theorem find_desc_is_max (q : Nat) :
    ∀ (tiers : List ProductPricingTier), MoqSortedDesc tiers →
    ∀ t, tiers.find? (fun tier => decide (tier.moq ≤ q)) = some t →
      t.moq ≤ q ∧ ∀ u ∈ tiers, u.moq ≤ q → u.moq ≤ t.moq := by
  intro tiers
  induction tiers with
  | nil => intro _ t ht; simp [List.find?] at ht
  | cons a l ih =>
    intro hs t ht
    unfold MoqSortedDesc at hs
    rw [List.pairwise_cons] at hs
    rw [List.find?_cons] at ht
    by_cases hq : a.moq ≤ q
    · simp [decide_eq_true hq] at ht
      subst ht
      refine ⟨hq, ?_⟩
      intro u hu _
      rcases List.mem_cons.mp hu with h | h
      · subst h; exact le_refl _
      · exact hs.1 u h
    · simp [decide_eq_false hq] at ht
      obtain ⟨h1, h2⟩ := ih hs.2 t ht
      refine ⟨h1, ?_⟩
      intro u hu huq
      rcases List.mem_cons.mp hu with h | h
      · subst h; exact absurd huq hq
      · exact h2 u h huq

/-- In a descending-by-moq list, the last tier has the smallest moq. -/
theorem getLast_desc_is_min :
    ∀ (tiers : List ProductPricingTier), MoqSortedDesc tiers →
    ∀ t, tiers.getLast? = some t → ∀ u ∈ tiers, t.moq ≤ u.moq := by
  intro tiers
  induction tiers with
  | nil => intro _ t ht; simp at ht
  | cons a l ih =>
    intro hs t ht u hu
    unfold MoqSortedDesc at hs
    rw [List.pairwise_cons] at hs
    cases l with
    | nil =>
      simp [List.getLast?] at ht
      subst ht
      rcases List.mem_singleton.mp hu with h
      subst h; exact le_refl _
    | cons b l2 =>
      rw [List.getLast?_cons_cons] at ht
      have hmem : t ∈ b :: l2 := by
        have := List.getLast?_eq_getLast (b :: l2) (by simp)
        rw [this] at ht
        injection ht with h
        subst h
        exact List.getLast_mem _
      rcases List.mem_cons.mp hu with h | h
      · subst h
        exact hs.1 t hmem
      · exact ih hs.2 t ht u h

/-- Claim C3: for every tier set (as delivered by the moq-descending query)
and every requested quantity, the resolver returns the price of the tier with
the largest moq not exceeding the quantity; if no tier qualifies it returns
the price of the minimum-moq tier; if there are no tiers it returns the flat
price, defaulting to 0 when that is absent; and the web-checkout resolver and
the cashier resolver agree on every input. -/
theorem claim_C3_price_resolver (tiers : List ProductPricingTier)
    (product_price : Option Int) (q : Nat) (hs : MoqSortedDesc tiers) :
    ((∃ t ∈ tiers, t.moq ≤ q) →
      ∃ t ∈ tiers, t.moq ≤ q ∧ (∀ u ∈ tiers, u.moq ≤ q → u.moq ≤ t.moq) ∧
        CartRouter.get_price_for_quantity tiers product_price q = t.price) ∧
    (tiers ≠ [] → (∀ t ∈ tiers, ¬ t.moq ≤ q) →
      ∃ t ∈ tiers, (∀ u ∈ tiers, t.moq ≤ u.moq) ∧
        CartRouter.get_price_for_quantity tiers product_price q = t.price) ∧
    (tiers = [] →
      CartRouter.get_price_for_quantity tiers product_price q =
        product_price.getD 0) ∧
    (CartRouter.get_price_for_quantity tiers product_price q =
      CashierRouter.get_price_for_quantity tiers product_price q) := by
  refine ⟨?_, ?_, ?_, ?_⟩
  · intro ⟨t0, ht0, ht0q⟩
    have hex : ∃ t, tiers.find? (fun tier => decide (tier.moq ≤ q)) = some t := by
      cases hfind : tiers.find? (fun tier => decide (tier.moq ≤ q)) with
      | some t => exact ⟨t, rfl⟩
      | none =>
        have := List.find?_eq_none.mp hfind t0 ht0
        simp [ht0q] at this
    obtain ⟨t, hfind⟩ := hex
    obtain ⟨h1, h2⟩ := find_desc_is_max q tiers hs t hfind
    refine ⟨t, List.mem_of_find?_eq_some hfind, h1, h2, ?_⟩
    unfold CartRouter.get_price_for_quantity
    rw [hfind]
  · intro hne hall
    have hfind : tiers.find? (fun tier => decide (tier.moq ≤ q)) = none := by
      apply List.find?_eq_none.mpr
      intro x hx
      simp [hall x hx]
    obtain ⟨t, hlast⟩ : ∃ t, tiers.getLast? = some t := by
      cases tiers with
      | nil => exact absurd rfl hne
      | cons a l => exact ⟨(a :: l).getLast (by simp), List.getLast?_eq_getLast _ _⟩
    refine ⟨t, ?_, getLast_desc_is_min tiers hs t hlast, ?_⟩
    · exact List.mem_of_getLast?_eq_some hlast
    · unfold CartRouter.get_price_for_quantity
      rw [hfind, hlast]
  · intro h
    subst h
    cases product_price with
    | none => rfl
    | some p => rfl
  · unfold CartRouter.get_price_for_quantity CashierRouter.get_price_for_quantity
    cases tiers.find? (fun tier => decide (tier.moq ≤ q)) with
    | some t => rfl
    | none =>
      cases tiers.getLast? with
      | some t => rfl
      | none =>
        cases product_price with
        | none => rfl
        | some p =>
          simp only []
          by_cases hp : p = 0
          · subst hp; simp
          · simp [hp]

/-- Concrete instance of claim C3: tiers (moq 10 ↦ 5, moq 5 ↦ 7, moq 1 ↦ 9),
quantity 6 — the moq-5 tier wins. -/
theorem claim_C3_price_resolver_witness :
    MoqSortedDesc [⟨1, 10, 5⟩, ⟨1, 5, 7⟩, ⟨1, 1, 9⟩] ∧
    (((∃ t ∈ [(⟨1, 10, 5⟩ : ProductPricingTier), ⟨1, 5, 7⟩, ⟨1, 1, 9⟩], t.moq ≤ 6) →
      ∃ t ∈ [(⟨1, 10, 5⟩ : ProductPricingTier), ⟨1, 5, 7⟩, ⟨1, 1, 9⟩], t.moq ≤ 6 ∧
        (∀ u ∈ [(⟨1, 10, 5⟩ : ProductPricingTier), ⟨1, 5, 7⟩, ⟨1, 1, 9⟩], u.moq ≤ 6 → u.moq ≤ t.moq) ∧
        CartRouter.get_price_for_quantity [⟨1, 10, 5⟩, ⟨1, 5, 7⟩, ⟨1, 1, 9⟩] none 6 = t.price) ∧
    ([(⟨1, 10, 5⟩ : ProductPricingTier), ⟨1, 5, 7⟩, ⟨1, 1, 9⟩] ≠ [] →
      (∀ t ∈ [(⟨1, 10, 5⟩ : ProductPricingTier), ⟨1, 5, 7⟩, ⟨1, 1, 9⟩], ¬ t.moq ≤ 6) →
      ∃ t ∈ [(⟨1, 10, 5⟩ : ProductPricingTier), ⟨1, 5, 7⟩, ⟨1, 1, 9⟩],
        (∀ u ∈ [(⟨1, 10, 5⟩ : ProductPricingTier), ⟨1, 5, 7⟩, ⟨1, 1, 9⟩], t.moq ≤ u.moq) ∧
        CartRouter.get_price_for_quantity [⟨1, 10, 5⟩, ⟨1, 5, 7⟩, ⟨1, 1, 9⟩] none 6 = t.price) ∧
    (([(⟨1, 10, 5⟩ : ProductPricingTier), ⟨1, 5, 7⟩, ⟨1, 1, 9⟩] : List ProductPricingTier) = [] →
      CartRouter.get_price_for_quantity [⟨1, 10, 5⟩, ⟨1, 5, 7⟩, ⟨1, 1, 9⟩] none 6 =
        Option.getD none 0) ∧
    (CartRouter.get_price_for_quantity [⟨1, 10, 5⟩, ⟨1, 5, 7⟩, ⟨1, 1, 9⟩] none 6 =
      CashierRouter.get_price_for_quantity [⟨1, 10, 5⟩, ⟨1, 5, 7⟩, ⟨1, 1, 9⟩] none 6)) :=
  ⟨by decide, claim_C3_price_resolver [⟨1, 10, 5⟩, ⟨1, 5, 7⟩, ⟨1, 1, 9⟩] none 6 (by decide)⟩

/-! ## Cart store (app/crud/cart.py, app/models/models.py) -/

/-- A JSON object of string values, as an insertion-ordered association list
with unique keys (a Python dict). -/
abbrev Metadata := List (String × String)

/-- Python `d.get(k)`: value of the key, or None. -/
def metaGet (m : Metadata) (k : String) : Option String :=
  (m.find? (fun p => p.1 == k)).map Prod.snd

/-- Python `k in d`. -/
def metaHasKey (m : Metadata) (k : String) : Bool :=
  (m.find? (fun p => p.1 == k)).isSome

/-- Python `d[k] = v`: update in place when the key exists, else append
(dicts keep insertion order). -/
def metaSet (m : Metadata) (k v : String) : Metadata :=
  if metaHasKey m k then m.map (fun p => if p.1 == k then (k, v) else p)
  else m ++ [(k, v)]

/-- Python truthiness of an optional dict: None and the empty dict are falsy. -/
def metaTruthy : Option Metadata → Bool
  | none => false
  | some m => !m.isEmpty

/-- Row of `cart_items` (`CartItem` in app/models/models.py). -/
structure CartItem where
  id : Nat
  user_id : Nat
  product_id : Nat
  quantity : Nat
  status : String
  item_metadata : Option Metadata
deriving Repr, DecidableEq

/-- The `cart_items` table together with its id sequence. -/
structure CartDB where
  items : List CartItem
  next_id : Nat
deriving Repr, DecidableEq

namespace CartCrud

/-- The filter `user_id == ... AND product_id == ... AND status == "in_cart"`
used by both branches of `add_to_cart`. -/
def inCartFor (uid pid : Nat) (c : CartItem) : Bool :=
  c.user_id == uid && c.product_id == pid && c.status == "in_cart"

/-- The per-row variant test of the scan in `add_to_cart`: the row's metadata
must be truthy, and its `selected_size` and `selected_color` must equal the
incoming ones via `.get` (an absent key compares equal to an absent key,
as Python `None == None`). -/
def variantMatches (new_meta : Metadata) (c : CartItem) : Bool :=
  match c.item_metadata with
  | none => false
  | some em =>
    !em.isEmpty &&
    (metaGet new_meta "selected_size" == metaGet em "selected_size") &&
    (metaGet new_meta "selected_color" == metaGet em "selected_color")

/-- `existing_metadata[key] = value` for every non-variant key of the incoming
metadata (`selected_size` and `selected_color` are skipped). -/
def mergeMeta (existing : Metadata) (new_meta : Metadata) : Metadata :=
  new_meta.foldl
    (fun acc kv =>
      if kv.1 == "selected_size" || kv.1 == "selected_color" then acc
      else metaSet acc kv.1 kv.2)
    existing

/-- Shallow embedding of `add_to_cart` (app/crud/cart.py lines 3-93).
If the incoming metadata is truthy and carries a size or color key, the
caller's in-cart rows for the product are scanned for an exact variant match;
otherwise the first in-cart row for the product is reused.  On a hit the
quantity is incremented and non-variant metadata keys merged; on a miss a
fresh row is inserted. -/
def add_to_cart (db : CartDB) (user_id product_id quantity : Nat)
    (item_metadata : Option Metadata) : CartDB × CartItem :=
  let existing_item : Option CartItem :=
    if metaTruthy item_metadata &&
        (metaHasKey (item_metadata.getD []) "selected_size" ||
         metaHasKey (item_metadata.getD []) "selected_color") then
      (db.items.filter (inCartFor user_id product_id)).find?
        (variantMatches (item_metadata.getD []))
    else
      (db.items.filter (inCartFor user_id product_id)).head?
  match existing_item with
  | some ex =>
    let new_meta : Option Metadata :=
      if metaTruthy item_metadata then
        some (mergeMeta (ex.item_metadata.getD []) (item_metadata.getD []))
      else ex.item_metadata
    let updated := { ex with quantity := ex.quantity + quantity, item_metadata := new_meta }
    (⟨db.items.map (fun c => if c.id == ex.id then updated else c), db.next_id⟩, updated)
  | none =>
    let c : CartItem := ⟨db.next_id, user_id, product_id, quantity, "in_cart", item_metadata⟩
    (⟨db.items ++ [c], db.next_id + 1⟩, c)

end CartCrud

/-- Claim C5: for every user and product, adding twice with identical size and
color variant metadata merges into exactly one in-cart line whose quantity is
the sum and whose variant keys are unchanged, while adding with two different
sizes produces two distinct in-cart lines. -/
theorem claim_C5_variant_merge (uid pid q1 q2 : Nat) :
    ((CartCrud.add_to_cart
        (CartCrud.add_to_cart ⟨[], 0⟩ uid pid q1
          (some [("selected_size", "M"), ("selected_color", "Red")])).1
        uid pid q2
        (some [("selected_size", "M"), ("selected_color", "Red")])).1.items.filter
      (CartCrud.inCartFor uid pid) =
      [⟨0, uid, pid, q1 + q2, "in_cart",
        some [("selected_size", "M"), ("selected_color", "Red")]⟩]) ∧
    ((CartCrud.add_to_cart
        (CartCrud.add_to_cart ⟨[], 0⟩ uid pid q1 (some [("selected_size", "M")])).1
        uid pid q2
        (some [("selected_size", "L")])).1.items.filter
      (CartCrud.inCartFor uid pid) =
      [⟨0, uid, pid, q1, "in_cart", some [("selected_size", "M")]⟩,
       ⟨1, uid, pid, q2, "in_cart", some [("selected_size", "L")]⟩]) := by
  constructor
  · simp [CartCrud.add_to_cart, CartCrud.inCartFor, CartCrud.variantMatches,
      CartCrud.mergeMeta, metaTruthy, metaGet, metaHasKey, metaSet,
      List.filter, List.find?]
  · simp [CartCrud.add_to_cart, CartCrud.inCartFor, CartCrud.variantMatches,
      CartCrud.mergeMeta, metaTruthy, metaGet, metaHasKey, metaSet,
      List.filter, List.find?]

/-! ## Orders, pending checkouts and the web database session
(app/models/order.py, app/models/models.py, app/routers/cart.py) -/

/-- The `ShippingInfo` schema: all fields are required strings, so the
`shipping_info[...]` lookups of the payment verifier always succeed. -/
structure ShippingInfo where
  full_name : String
  email : String
  phone : String
  address : String
  city : String
  state : String
  pincode : String
  country : String
deriving Repr, DecidableEq

/-- One entry of a prepared order's `order_items` JSON list
(built in `checkout_create_razorpay_order`, app/routers/cart.py lines 260-268). -/
structure PreparedOrderItem where
  product_id : Nat
  product_name : String
  quantity : Nat
  price : Int
  total_price : Int
  cart_item_id : Nat
  item_metadata : Option Metadata
deriving Repr, DecidableEq

/-- One per-vendor breakdown of `prepared_orders`
(app/routers/cart.py lines 270-276). -/
structure PreparedOrder where
  vendor_id : Nat
  total_amount : Int
  items_count : Nat
  order_items : List PreparedOrderItem
  cart_item_ids : List Nat
deriving Repr, DecidableEq

/-- Row of `pending_checkouts` (`PendingCheckout` in app/models/models.py).
`status` has column default "pending"; timestamps are not modelled. -/
structure PendingCheckout where
  id : Nat
  user_id : Nat
  razorpay_order_id : String
  total_amount : Int
  shipping_info : ShippingInfo
  prepared_orders : List PreparedOrder
  cart_item_ids : Option (List Nat)
  status : String
deriving Repr, DecidableEq

/-- Row of `orders` (`Order` in app/models/order.py), restricted to the fields
the checkout core writes or reads; timestamps are not modelled. -/
structure OrderRow where
  id : Nat
  customer_name : Option String
  customer_email : Option String
  customer_phone : Option String
  shipping_address : Option String
  total_amount : Int
  vendor_id : Nat
  status : String
  order_type : String
  payment_method : String
  razorpay_order_id : Option String
  razorpay_payment_id : Option String
  register_session_id : Option Nat
deriving Repr, DecidableEq

/-- Row of `order_items` (`OrderItem` in app/models/order.py). -/
structure OrderItemRow where
  product_id : Nat
  product_name : String
  quantity : Nat
  price : Int
  vendor_id : Nat
  order_id : Nat
  item_metadata : Option Metadata
deriving Repr, DecidableEq

/-- The tables touched by the web checkout and payment-verify flow, plus the
id sequences. -/
structure WebDB where
  products : List Product
  cart_items : List CartItem
  pendings : List PendingCheckout
  orders : List OrderRow
  order_items : List OrderItemRow
  next_order_id : Nat
  next_pending_id : Nat
deriving Repr, DecidableEq

/-- A SQLAlchemy session over the web tables: `committed` is what the
database holds after the last commit, `current` is the in-transaction view. -/
structure WebSession where
  committed : WebDB
  current : WebDB
deriving Repr, DecidableEq

/-- `db.commit()`: publish the in-transaction view. -/
def wcommit (s : WebSession) : WebSession := ⟨s.current, s.current⟩

/-- `db.rollback()`: discard uncommitted changes. -/
def wrollback (s : WebSession) : WebSession := ⟨s.committed, s.committed⟩

/-- The `CheckoutRequest` schema (app/routers/cart.py lines 30-32):
`cart_item_ids` is optional, defaulting to None. -/
structure CheckoutRequest where
  shipping_info : ShippingInfo
  cart_item_ids : Option (List Nat)
deriving Repr, DecidableEq

/-- The typed failures of `checkout_create_razorpay_order` (the HTTP 400s;
gateway/persistence 500s are outside the embedded state machine). -/
inductive CheckoutError
  | InvalidSelection
  | NoItemsSelected
  | NoValidProducts
deriving Repr, DecidableEq

/-- The `PaymentVerification` schema (app/schemas/order.py). -/
structure PaymentVerification where
  razorpay_order_id : String
  razorpay_payment_id : String
  razorpay_signature : String
deriving Repr, DecidableEq

/-- The typed failures of `verify_payment`. -/
inductive VerifyError
  | SignatureMismatch
  | PendingCheckoutNotFound
  | OrderCreationFailed (idx : Nat)
deriving Repr, DecidableEq

namespace CartRouter

/-- The selection step of `checkout_create_razorpay_order` (app/routers/cart.py
lines 202-218): the caller's in-cart lines, restricted to the requested ids
only when the request carries a non-empty (truthy) list. -/
def selectedCart (uid : Nat) (req_ids : Option (List Nat)) (db : WebDB) : List CartItem :=
  let base := db.cart_items.filter (fun c => c.user_id == uid && c.status == "in_cart")
  match req_ids with
  | some ids => if !ids.isEmpty then base.filter (fun c => ids.contains c.id) else base
  | none => base

/-- Step 2 of the checkout: look the product up and resolve the line's current
unit price from the tier table; a line whose product is missing is skipped. -/
def resolveLine (products : List Product) (tiersOf : Nat → List ProductPricingTier)
    (c : CartItem) : Option (CartItem × Product × Int) :=
  (products.find? (fun p => p.id == c.product_id)).map
    (fun p => (c, p, get_price_for_quantity (tiersOf p.id) p.price c.quantity))

/-- `defaultdict(list)` bucket append: extend the bucket of an existing key in
place, else append a fresh bucket (Python dicts keep insertion order). -/
def insertGrouped (acc : List (Nat × List (CartItem × Product × Int)))
    (key : Nat) (entry : CartItem × Product × Int) :
    List (Nat × List (CartItem × Product × Int)) :=
  match acc with
  | [] => [(key, [entry])]
  | (k, l) :: rest =>
    if k == key then (k, l ++ [entry]) :: rest
    else (k, l) :: insertGrouped rest key entry

/-- Step 2 of the checkout: group the resolved lines into per-vendor buckets. -/
def groupByVendor (entries : List (CartItem × Product × Int)) :
    List (Nat × List (CartItem × Product × Int)) :=
  entries.foldl (fun acc e => insertGrouped acc e.2.1.vendor_id e) []

/-- Step 3 of the checkout: one per-vendor breakdown, with the bucket's
subtotal, item count, order-item snapshots and cart-item ids
(app/routers/cart.py lines 247-279). -/
def mkPreparedOrder (vid : Nat) (entries : List (CartItem × Product × Int)) :
    PreparedOrder :=
  { vendor_id := vid
    total_amount := (entries.map (fun e => e.2.2 * (e.1.quantity : Int))).sum
    items_count := (entries.map (fun e => e.1.quantity)).sum
    order_items := entries.map (fun e =>
      { product_id := e.2.1.id, product_name := e.2.1.name, quantity := e.1.quantity,
        price := e.2.2, total_price := e.2.2 * (e.1.quantity : Int),
        cart_item_id := e.1.id, item_metadata := e.1.item_metadata })
    cart_item_ids := entries.map (fun e => e.1.id) }

/-- Shallow embedding of `checkout_create_razorpay_order` (app/routers/cart.py
lines 190-364).  `tiersOf` stands for the per-product moq-descending tier
query and `razorpay_order_id` for the id the gateway returns for the created
order (the gateway call itself is outside the state machine; its failure
aborts before any persistence).  Returns the persisted `PendingCheckout`. -/
def checkout_create_razorpay_order (tiersOf : Nat → List ProductPricingTier)
    (razorpay_order_id : String) (uid : Nat) (data : CheckoutRequest)
    (s : WebSession) : WebSession × Except CheckoutError PendingCheckout :=
  let db := s.current
  let truthy : Bool :=
    match data.cart_item_ids with
    | some ids => !ids.isEmpty
    | none => false
  let cart_items := selectedCart uid data.cart_item_ids db
  if truthy && (cart_items.length != (data.cart_item_ids.getD []).length) then
    (s, .error .InvalidSelection)
  else if cart_items.isEmpty then
    (s, .error .NoItemsSelected)
  else
    let resolved := cart_items.filterMap (resolveLine db.products tiersOf)
    if resolved.isEmpty then
      (s, .error .NoValidProducts)
    else
      let prepared_orders := (groupByVendor resolved).map (fun g => mkPreparedOrder g.1 g.2)
      let total_checkout_amount := (prepared_orders.map PreparedOrder.total_amount).sum
      let shipping_cost : Int := 0
      let final_amount := total_checkout_amount + shipping_cost
      let pending_checkout : PendingCheckout :=
        { id := db.next_pending_id, user_id := uid,
          razorpay_order_id := razorpay_order_id,
          total_amount := final_amount,
          shipping_info := data.shipping_info,
          prepared_orders := prepared_orders,
          cart_item_ids := if truthy then data.cart_item_ids else none,
          status := "pending" }
      let s2 := wcommit { s with current :=
        { db with pendings := db.pendings ++ [pending_checkout],
                  next_pending_id := db.next_pending_id + 1 } }
      (s2, .ok pending_checkout)

/-- The `shipping_address_full` string of `verify_payment` step 4. -/
def shippingAddressFull (sh : ShippingInfo) : String :=
  sh.address ++ ", " ++ sh.city ++ ", " ++ sh.state ++ " - " ++ sh.pincode ++ ", " ++ sh.country

/-- Step 6 of `verify_payment` (app/routers/cart.py lines 496-579): one pass
of the loop per per-vendor breakdown.  The order row is committed immediately
after insertion (the commit also publishes the previous pass's uncommitted
order items and cart flips); order items and the cart-status flips stay
uncommitted until the next pass's commit or the final commit.  `order_fails`
says whether creating the order at a given index raises; on a raise the
session rolls back and `OrderCreationFailed` surfaces with the index. -/
def materializeLoop (uid : Nat) (pd : PaymentVerification)
    (order_fails : Nat → Bool) (ship : ShippingInfo) :
    List PreparedOrder → Nat → WebSession → WebSession × Option VerifyError
  | [], _, s => (s, none)
  | od :: rest, idx, s =>
    if order_fails idx then (wrollback s, some (.OrderCreationFailed idx))
    else
      let db := s.current
      let oid := db.next_order_id
      let new_order : OrderRow :=
        { id := oid,
          customer_name := some ship.full_name,
          customer_email := some ship.email,
          customer_phone := some ship.phone,
          shipping_address := some (shippingAddressFull ship),
          total_amount := od.total_amount,
          vendor_id := od.vendor_id,
          status := "Pending",
          order_type := "online",
          payment_method := "cash",
          razorpay_order_id := some pd.razorpay_order_id,
          razorpay_payment_id := some pd.razorpay_payment_id,
          register_session_id := none }
      let s1 : WebSession := { s with current :=
        { db with orders := db.orders ++ [new_order], next_order_id := oid + 1 } }
      let s2 := wcommit s1
      let new_items := od.order_items.map (fun it =>
        ({ product_id := it.product_id, product_name := it.product_name,
           quantity := it.quantity, price := it.price, vendor_id := od.vendor_id,
           order_id := oid, item_metadata := it.item_metadata } : OrderItemRow))
      let s3 : WebSession := { s2 with current :=
        { s2.current with order_items := s2.current.order_items ++ new_items } }
      let s4 : WebSession := { s3 with current :=
        { s3.current with cart_items := (s3.current.cart_items.map
          (fun c => if od.cart_item_ids.contains c.id && c.user_id == uid then
             { c with status := "checkout" } else c)) } }
      materializeLoop uid pd order_fails ship rest (idx + 1) s4

/-- Shallow embedding of `verify_payment` (app/routers/cart.py lines 410-625).
`hmac_sha256 key msg` stands for `hmac.new(key, msg, sha256).hexdigest()`.
Step 1 recomputes the signature over `orderId|paymentId`; step 2 looks the
pending checkout up by gateway order id and caller identity (note: the query
does not constrain `status`); steps 6-7 materialize the orders and mark the
checkout completed.  Returns the number of orders created. -/
def verify_payment (hmac_sha256 : String → String → String) (secret : String)
    (order_fails : Nat → Bool) (uid : Nat) (pd : PaymentVerification)
    (s : WebSession) : WebSession × Except VerifyError Nat :=
  let generated_signature :=
    hmac_sha256 secret (pd.razorpay_order_id ++ "|" ++ pd.razorpay_payment_id)
  if generated_signature != pd.razorpay_signature then
    (s, .error .SignatureMismatch)
  else
    match s.current.pendings.find? (fun p =>
        p.razorpay_order_id == pd.razorpay_order_id && p.user_id == uid) with
    | none => (s, .error .PendingCheckoutNotFound)
    | some pending_checkout =>
      match materializeLoop uid pd order_fails pending_checkout.shipping_info
          pending_checkout.prepared_orders 0 s with
      | (s1, some e) => (s1, .error e)
      | (s1, none) =>
        let s2 : WebSession := { s1 with current :=
          { s1.current with pendings := (s1.current.pendings.map
            (fun p => if p.id == pending_checkout.id then
               { p with status := "completed" } else p)) } }
        let s3 := wcommit s2
        (s3, .ok pending_checkout.prepared_orders.length)

end CartRouter

/-! ## Claims about the payment verifier and order materializer -/

/-- Claim C4: whenever the supplied signature differs from
HMAC-SHA256(secret, orderId|paymentId), payment verification fails with
SignatureMismatch and returns the session exactly as it was: no cart item,
pending checkout or order mutation, and zero order rows created. -/
theorem claim_C4_signature_mismatch (hmac_sha256 : String → String → String)
    (secret : String) (order_fails : Nat → Bool) (uid : Nat)
    (pd : PaymentVerification) (s : WebSession)
    (h : hmac_sha256 secret (pd.razorpay_order_id ++ "|" ++ pd.razorpay_payment_id) ≠
      pd.razorpay_signature) :
    CartRouter.verify_payment hmac_sha256 secret order_fails uid pd s =
      (s, .error .SignatureMismatch) := by
  have hb : (hmac_sha256 secret (pd.razorpay_order_id ++ "|" ++ pd.razorpay_payment_id) !=
      pd.razorpay_signature) = true := by
    simpa [bne_iff_ne] using h
  unfold CartRouter.verify_payment
  simp only [hb, if_true]

/-- A stand-in HMAC for concrete runs: deterministic and collision-free on
the inputs used here. -/
def demoHmac : String → String → String := fun key msg => key ++ "#" ++ msg

/-- An empty web database. -/
def emptyWebDB : WebDB := ⟨[], [], [], [], [], 0, 0⟩

/-- Concrete instance of claim C4: stored secret "k", tampered signature. -/
theorem claim_C4_signature_mismatch_witness :
    (demoHmac "k" ("o" ++ "|" ++ "p") ≠ "forged") ∧
    CartRouter.verify_payment demoHmac "k" (fun _ => false) 1 ⟨"o", "p", "forged"⟩
        ⟨emptyWebDB, emptyWebDB⟩ =
      (⟨emptyWebDB, emptyWebDB⟩, .error .SignatureMismatch) :=
  ⟨by decide,
   claim_C4_signature_mismatch demoHmac "k" (fun _ => false) 1 ⟨"o", "p", "forged"⟩
     ⟨emptyWebDB, emptyWebDB⟩ (by decide)⟩

/-- Claim C10: a checkout request whose cart_item_ids is the empty list is
treated exactly like one that omits the field: the selection is every in-cart
line of the caller (the filter and the id validation are only applied to a
truthy, i.e. non-empty, list), and the whole checkout computation returns
identical results. -/
theorem claim_C10_empty_selection (tiersOf : Nat → List ProductPricingTier)
    (razorpay_order_id : String) (uid : Nat) (sh : ShippingInfo) (s : WebSession) :
    (CartRouter.selectedCart uid (some []) s.current =
      s.current.cart_items.filter (fun c => c.user_id == uid && c.status == "in_cart")) ∧
    CartRouter.checkout_create_razorpay_order tiersOf razorpay_order_id uid
        ⟨sh, some []⟩ s =
      CartRouter.checkout_create_razorpay_order tiersOf razorpay_order_id uid
        ⟨sh, none⟩ s :=
  ⟨rfl, rfl⟩

/-- Shipping snapshot used by the concrete replay/atomicity runs. -/
def c1_sh : ShippingInfo := ⟨"A", "e", "p", "addr", "city", "st", "pin", "IN"⟩

/-- A one-vendor prepared breakdown (vendor 7, one line of two units at 5). -/
def c1_po : PreparedOrder :=
  { vendor_id := 7, total_amount := 10, items_count := 2,
    order_items := [⟨5, "Widget", 2, 5, 10, 3, none⟩], cart_item_ids := [3] }

/-- A pending checkout for gateway order "ord_1", still pending. -/
def c1_pc : PendingCheckout :=
  { id := 1, user_id := 9, razorpay_order_id := "ord_1", total_amount := 10,
    shipping_info := c1_sh, prepared_orders := [c1_po], cart_item_ids := none,
    status := "pending" }

/-- Database holding that single pending checkout and its cart line. -/
def c1_db : WebDB :=
  { products := [], cart_items := [⟨3, 9, 5, 2, "in_cart", none⟩],
    pendings := [c1_pc], orders := [], order_items := [],
    next_order_id := 100, next_pending_id := 2 }

/-- A verification request for "ord_1" whose signature is valid for demoHmac
and secret "sec". -/
def c1_pd : PaymentVerification := ⟨"ord_1", "pay_1", "sec#ord_1|pay_1"⟩

/-- First verification call against the pending checkout. -/
def c1_first : WebSession × Except VerifyError Nat :=
  CartRouter.verify_payment demoHmac "sec" (fun _ => false) 9 c1_pd ⟨c1_db, c1_db⟩

/-- Second verification call, replaying the identical valid request after the
first one completed the checkout. -/
def c1_second : WebSession × Except VerifyError Nat :=
  CartRouter.verify_payment demoHmac "sec" (fun _ => false) 9 c1_pd c1_first.1

/-- Claim C1 fails on the code: the pending-checkout lookup in verify_payment
filters only on gateway order id and user, never on status, so after the
first call completes the checkout (status "completed", one order row), an
identical replay is accepted again (it does not fail closed) and commits a
second order row for the same payment. -/
theorem claim_C1_replay_accepted_again :
    c1_first.2 = .ok 1 ∧
    c1_first.1.committed.orders.length = 1 ∧
    c1_first.1.committed.pendings.map PendingCheckout.status = ["completed"] ∧
    c1_second.2 = .ok 1 ∧
    c1_second.1.committed.orders.length = 2 :=
  ⟨rfl, rfl, rfl, rfl, rfl⟩

/-- Two-vendor prepared breakdowns for the atomicity run. -/
def c2_po0 : PreparedOrder :=
  { vendor_id := 7, total_amount := 10, items_count := 2,
    order_items := [⟨5, "Widget", 2, 5, 10, 3, none⟩], cart_item_ids := [3] }

/-- Second breakdown (vendor 8). -/
def c2_po1 : PreparedOrder :=
  { vendor_id := 8, total_amount := 7, items_count := 1,
    order_items := [⟨6, "Gadget", 1, 7, 7, 4, none⟩], cart_item_ids := [4] }

/-- A pending checkout spanning two vendors. -/
def c2_pc : PendingCheckout :=
  { id := 1, user_id := 9, razorpay_order_id := "ord_2", total_amount := 17,
    shipping_info := c1_sh, prepared_orders := [c2_po0, c2_po1],
    cart_item_ids := none, status := "pending" }

/-- Database for the two-vendor checkout. -/
def c2_db : WebDB :=
  { products := [],
    cart_items := [⟨3, 9, 5, 2, "in_cart", none⟩, ⟨4, 9, 6, 1, "in_cart", none⟩],
    pendings := [c2_pc], orders := [], order_items := [],
    next_order_id := 100, next_pending_id := 2 }

/-- A valid verification request for "ord_2". -/
def c2_pd : PaymentVerification := ⟨"ord_2", "pay_2", "sec#ord_2|pay_2"⟩

/-- Verification of the two-vendor checkout where creating the second order
(index 1) raises. -/
def c2_run : WebSession × Except VerifyError Nat :=
  CartRouter.verify_payment demoHmac "sec" (fun i => i == 1) 9 c2_pd ⟨c2_db, c2_db⟩

/-- Claim C2 fails on the code: each order is committed individually inside
the materialization loop, so when creating the second of two orders fails,
the rollback cannot undo the first order's commit — an Order row from this
checkout (vendor 7) remains in the database even though the operation errors
with OrderCreationFailed 1 and the pending checkout stays "pending". -/
theorem claim_C2_partial_materialization_persists :
    c2_run.2 = .error (.OrderCreationFailed 1) ∧
    c2_run.1.committed.orders.map OrderRow.vendor_id = [7] ∧
    c2_run.1.committed.pendings.map PendingCheckout.status = ["pending"] :=
  ⟨rfl, rfl, rfl⟩

/-! ## Claim C8: shape of the prepared checkout -/

/-- Bucket insertion adds a key to the group list only when it is new. -/
theorem insertGrouped_fst (acc : List (Nat × List (CartItem × Product × Int)))
    (k : Nat) (e : CartItem × Product × Int) :
    (CartRouter.insertGrouped acc k e).map Prod.fst =
      if k ∈ acc.map Prod.fst then acc.map Prod.fst else acc.map Prod.fst ++ [k] := by
  induction acc with
  | nil => simp [CartRouter.insertGrouped]
  | cons hd tl ih =>
    obtain ⟨k2, l⟩ := hd
    by_cases hk : k2 = k
    · subst hk
      simp [CartRouter.insertGrouped]
    · by_cases hmem : k ∈ tl.map Prod.fst
      · simp [CartRouter.insertGrouped, hk, ih, hmem, Ne.symm hk]
      · simp [CartRouter.insertGrouped, hk, ih, hmem, Ne.symm hk]

theorem groupFold_props (entries : List (CartItem × Product × Int)) :
    ∀ acc : List (Nat × List (CartItem × Product × Int)), (acc.map Prod.fst).Nodup →
    ((entries.foldl (fun a e => CartRouter.insertGrouped a e.2.1.vendor_id e) acc).map
        Prod.fst).Nodup ∧
    ((entries.foldl (fun a e => CartRouter.insertGrouped a e.2.1.vendor_id e) acc).map
        Prod.fst).toFinset =
      (acc.map Prod.fst).toFinset ∪ (entries.map (fun e => e.2.1.vendor_id)).toFinset := by
  induction entries with
  | nil => intro acc h; simp [h]
  | cons e rest ih =>
    intro acc h
    rw [List.foldl_cons]
    have hfst := insertGrouped_fst acc e.2.1.vendor_id e
    by_cases hmem : e.2.1.vendor_id ∈ acc.map Prod.fst
    · rw [if_pos hmem] at hfst
      have h2 : ((CartRouter.insertGrouped acc e.2.1.vendor_id e).map Prod.fst).Nodup := by
        rw [hfst]; exact h
      obtain ⟨hn, hf⟩ := ih _ h2
      refine ⟨hn, ?_⟩
      rw [hf, hfst]
      ext x
      simp only [Finset.mem_union, List.mem_toFinset, List.map_cons, List.mem_cons]
      constructor
      · rintro (hx | hx)
        · exact Or.inl hx
        · exact Or.inr (Or.inr hx)
      · rintro (hx | hx | hx)
        · exact Or.inl hx
        · subst hx; exact Or.inl hmem
        · exact Or.inr hx
    · rw [if_neg hmem] at hfst
      have h2 : ((CartRouter.insertGrouped acc e.2.1.vendor_id e).map Prod.fst).Nodup := by
        rw [hfst]
        simp [List.nodup_append, h, hmem]
      obtain ⟨hn, hf⟩ := ih _ h2
      refine ⟨hn, ?_⟩
      rw [hf, hfst]
      ext x
      simp [List.mem_toFinset]
      tauto

theorem groupByVendor_keys (entries : List (CartItem × Product × Int)) :
    ((CartRouter.groupByVendor entries).map Prod.fst).Nodup ∧
    ((CartRouter.groupByVendor entries).map Prod.fst).toFinset =
      (entries.map (fun e => e.2.1.vendor_id)).toFinset := by
  have h := groupFold_props entries [] (by simp)
  simpa [CartRouter.groupByVendor] using h


theorem claim_C8_checkout_prepare_shape (tiersOf : Nat → List ProductPricingTier)
    (razorpay_order_id : String) (uid : Nat) (data : CheckoutRequest)
    (s s2 : WebSession) (pc : PendingCheckout)
    (h : CartRouter.checkout_create_razorpay_order tiersOf razorpay_order_id uid data s =
      (s2, .ok pc)) :
    (∀ po ∈ pc.prepared_orders,
       po.total_amount = (po.order_items.map (fun it => it.price * (it.quantity : Int))).sum) ∧
    pc.total_amount = (pc.prepared_orders.map PreparedOrder.total_amount).sum + 0 ∧
    (pc.prepared_orders.map PreparedOrder.vendor_id).Nodup ∧
    pc.prepared_orders.length =
      (((CartRouter.selectedCart uid data.cart_item_ids s.current).filterMap
          (CartRouter.resolveLine s.current.products tiersOf)).map
        (fun e => e.2.1.vendor_id)).toFinset.card ∧
    s2.committed.pendings = s.current.pendings ++ [pc] := by
  have hshape :
      pc.prepared_orders = (CartRouter.groupByVendor
          ((CartRouter.selectedCart uid data.cart_item_ids s.current).filterMap
            (CartRouter.resolveLine s.current.products tiersOf))).map
          (fun g => CartRouter.mkPreparedOrder g.1 g.2) ∧
      pc.total_amount = (pc.prepared_orders.map PreparedOrder.total_amount).sum + 0 ∧
      s2.committed.pendings = s.current.pendings ++ [pc] := by
    unfold CartRouter.checkout_create_razorpay_order at h
    simp only [wcommit] at h
    split at h
    · simp at h
    · split at h
      · simp at h
      · split at h
        · simp at h
        · rw [Prod.mk.injEq] at h
          obtain ⟨hs2, hpc⟩ := h
          rw [Except.ok.injEq] at hpc
          subst hpc
          subst hs2
          exact ⟨rfl, rfl, rfl⟩
  obtain ⟨hprep, htot, hpend⟩ := hshape
  refine ⟨?_, htot, ?_, ?_, hpend⟩
  · intro po hpo
    rw [hprep] at hpo
    obtain ⟨g, hg, rfl⟩ := List.mem_map.mp hpo
    simp [CartRouter.mkPreparedOrder, List.map_map, Function.comp_def]
  · rw [hprep]
    have hkeys := (groupByVendor_keys
      ((CartRouter.selectedCart uid data.cart_item_ids s.current).filterMap
        (CartRouter.resolveLine s.current.products tiersOf))).1
    simpa [List.map_map, CartRouter.mkPreparedOrder, Function.comp_def] using hkeys
  · rw [hprep]
    have hkeys := groupByVendor_keys
      ((CartRouter.selectedCart uid data.cart_item_ids s.current).filterMap
        (CartRouter.resolveLine s.current.products tiersOf))
    rw [List.length_map, ← hkeys.2, List.toFinset_card_of_nodup hkeys.1, List.length_map]

/-- State for the concrete two-vendor checkout run. -/
def c8_db : WebDB :=
  { products := [⟨5, "A", 10, some 5, 100⟩, ⟨6, "B", 20, some 7, 100⟩],
    cart_items := [⟨1, 9, 5, 2, "in_cart", none⟩, ⟨2, 9, 6, 1, "in_cart", none⟩],
    pendings := [], orders := [], order_items := [],
    next_order_id := 50, next_pending_id := 1 }

/-- Session for the concrete checkout run. -/
def c8_s : WebSession := ⟨c8_db, c8_db⟩

/-- The concrete checkout run: two cart lines, vendors 10 and 20, no tier
pricing, whole cart selected. -/
def c8_run : WebSession × Except CheckoutError PendingCheckout :=
  CartRouter.checkout_create_razorpay_order (fun _ => []) "rz_1" 9 ⟨c1_sh, none⟩ c8_s

/-- The pending checkout that run persists. -/
def c8_pc : PendingCheckout :=
  { id := 1, user_id := 9, razorpay_order_id := "rz_1", total_amount := 17,
    shipping_info := c1_sh,
    prepared_orders :=
      [⟨10, 10, 2, [⟨5, "A", 2, 5, 10, 1, none⟩], [1]⟩,
       ⟨20, 7, 1, [⟨6, "B", 1, 7, 7, 2, none⟩], [2]⟩],
    cart_item_ids := none, status := "pending" }

/-- Concrete instance of claim C8: two vendors give two breakdowns with
subtotals 10 and 7 and a grand total of 17. -/
theorem claim_C8_checkout_prepare_shape_witness :
    (c8_run = (c8_run.1, Except.ok c8_pc)) ∧
    ((∀ po ∈ c8_pc.prepared_orders,
       po.total_amount = (po.order_items.map (fun it => it.price * (it.quantity : Int))).sum) ∧
    c8_pc.total_amount = (c8_pc.prepared_orders.map PreparedOrder.total_amount).sum + 0 ∧
    (c8_pc.prepared_orders.map PreparedOrder.vendor_id).Nodup ∧
    c8_pc.prepared_orders.length =
      (((CartRouter.selectedCart 9 none c8_s.current).filterMap
          (CartRouter.resolveLine c8_s.current.products (fun _ => []))).map
        (fun e => e.2.1.vendor_id)).toFinset.card ∧
    c8_run.1.committed.pendings = c8_s.current.pendings ++ [c8_pc]) :=
  ⟨rfl, claim_C8_checkout_prepare_shape (fun _ => []) "rz_1" 9 ⟨c1_sh, none⟩
    c8_s c8_run.1 c8_pc rfl⟩

/-! ## Register sessions and the cashier flow
(app/models/register.py, app/routers/cashier.py) -/

/-- The `RegisterStatus` enum (app/models/register.py lines 8-10). -/
inductive RegisterStatus
  | OPEN
  | CLOSED
deriving Repr, DecidableEq

/-- Row of `register_sessions` (`RegisterSession` in app/models/register.py),
restricted to the fields the cashier flow reads or writes; timestamps and
note fields are not modelled. -/
structure RegisterSession where
  id : Nat
  vendor_id : Nat
  register_name : String
  cashier_name : String
  opening_float : Int
  closing_amount : Option Int
  expected_amount : Option Int
  variance : Option Int
  total_sales : Int
  total_cash_sales : Int
  total_card_sales : Int
  total_digital_sales : Int
  transaction_count : Nat
  status : RegisterStatus
deriving Repr, DecidableEq

/-- `RegisterSession.calculate_expected_amount` (app/models/register.py
lines 60-62): expected cash at close is the opening float plus the cash
sales of the session. -/
def RegisterSession.calculate_expected_amount (r : RegisterSession) : Int :=
  r.opening_float + r.total_cash_sales

/-- The `CashierItem` schema (app/routers/cashier.py lines 19-23). -/
structure CashierItem where
  product_id : Nat
  quantity : Nat
  unit_price : Int
  total_price : Int
deriving Repr, DecidableEq

/-- The `CashierCustomer` schema (app/routers/cashier.py lines 25-28). -/
structure CashierCustomer where
  name : Option String
  email : Option String
  phone : Option String
deriving Repr, DecidableEq

/-- The `CashierCheckout` schema (app/routers/cashier.py lines 30-39). -/
structure CashierCheckout where
  vendor_id : Nat
  items : List CashierItem
  customer : Option CashierCustomer
  payment_method : String
  tax_amount : Int
  discount_amount : Int
  subtotal : Int
  total_amount : Int
deriving Repr, DecidableEq

/-- The tables touched by the cashier flow.  `vendors` holds the existing
vendor ids. -/
structure CashierDB where
  vendors : List Nat
  products : List Product
  registers : List RegisterSession
  orders : List OrderRow
  order_items : List OrderItemRow
  next_order_id : Nat
deriving Repr, DecidableEq

/-- The typed failures of the cashier endpoints. -/
inductive CashierError
  | VendorNotFound
  | NoOpenRegister
  | ProductNotFound (product_id : Nat)
  | InsufficientStock (product_id : Nat) (available : Int) (requested : Nat)
deriving Repr, DecidableEq

/-- Summary returned by `process_cashier_checkout`. -/
structure CashierCheckoutResponse where
  order_id : Nat
  total_amount : Int
  payment_method : String
  items_count : Nat
  register_session_id : Nat
deriving Repr, DecidableEq

/-- Summary returned by `close_register` (app/routers/cashier.py
lines 499-514). -/
structure RegisterCloseSummary where
  session_id : Nat
  opening_float : Int
  total_sales : Int
  cash_sales : Int
  expected_cash : Int
  actual_cash : Int
  variance : Int
  variance_status : String
  transaction_count : Nat
deriving Repr, DecidableEq

namespace CashierRouter

/-- The query for the vendor's open register session, shared by checkout,
register-status and register-close. -/
def findOpenRegister (db : CashierDB) (vendor_id : Nat) : Option RegisterSession :=
  db.registers.find? (fun r =>
    r.vendor_id == vendor_id && decide (r.status = RegisterStatus.OPEN))

/-- The stock-verification loop of `process_cashier_checkout`
(app/routers/cashier.py lines 243-253): the first line whose product is
missing or whose stock is below the requested quantity decides the error. -/
def stockCheck (products : List Product) : List CashierItem → Option CashierError
  | [] => none
  | item :: rest =>
    match products.find? (fun p => p.id == item.product_id) with
    | none => some (.ProductNotFound item.product_id)
    | some p =>
      if p.stock < (item.quantity : Int) then
        some (.InsufficientStock p.id p.stock item.quantity)
      else stockCheck products rest

/-- Shallow embedding of `process_cashier_checkout` (app/routers/cashier.py
lines 220-322): require the vendor, an open register and sufficient stock,
then in one transaction create the completed POS order with its items,
decrement each line's product stock, and additively update the register
aggregates — the matching payment-method bucket only for "cash", "card" or
"digital". -/
def process_cashier_checkout (checkout_data : CashierCheckout) (db : CashierDB) :
    CashierDB × Except CashierError CashierCheckoutResponse :=
  if !(db.vendors.contains checkout_data.vendor_id) then
    (db, .error .VendorNotFound)
  else
    match findOpenRegister db checkout_data.vendor_id with
    | none => (db, .error .NoOpenRegister)
    | some register_session =>
      match stockCheck db.products checkout_data.items with
      | some e => (db, .error e)
      | none =>
        let oid := db.next_order_id
        let new_order : OrderRow :=
          { id := oid,
            customer_name := (match checkout_data.customer with
              | some c => c.name
              | none => some "Walk-in Customer"),
            customer_email := (match checkout_data.customer with
              | some c => c.email
              | none => none),
            customer_phone := (match checkout_data.customer with
              | some c => c.phone
              | none => none),
            shipping_address := some "In-Store Purchase",
            total_amount := checkout_data.total_amount,
            vendor_id := checkout_data.vendor_id,
            status := "Completed",
            order_type := "pos",
            payment_method := checkout_data.payment_method,
            razorpay_order_id := none,
            razorpay_payment_id := none,
            register_session_id := some register_session.id }
        let new_items := checkout_data.items.map (fun item =>
          ({ product_id := item.product_id,
             product_name := ((db.products.find? (fun p => p.id == item.product_id)).map
               Product.name).getD "",
             quantity := item.quantity, price := item.unit_price,
             vendor_id := checkout_data.vendor_id, order_id := oid,
             item_metadata := none } : OrderItemRow))
        let products2 := checkout_data.items.foldl
          (fun ps item => ps.map (fun p =>
            if p.id == item.product_id then
              { p with stock := p.stock - (item.quantity : Int) }
            else p))
          db.products
        let base := { register_session with
          total_sales := register_session.total_sales + checkout_data.total_amount,
          transaction_count := register_session.transaction_count + 1 }
        let updated_register :=
          if checkout_data.payment_method == "cash" then
            { base with total_cash_sales :=
                register_session.total_cash_sales + checkout_data.total_amount }
          else if checkout_data.payment_method == "card" then
            { base with total_card_sales :=
                register_session.total_card_sales + checkout_data.total_amount }
          else if checkout_data.payment_method == "digital" then
            { base with total_digital_sales :=
                register_session.total_digital_sales + checkout_data.total_amount }
          else base
        let registers2 := db.registers.map (fun r =>
          if r.id == register_session.id then updated_register else r)
        (⟨db.vendors, products2, registers2, db.orders ++ [new_order],
          db.order_items ++ new_items, oid + 1⟩,
         .ok { order_id := oid, total_amount := checkout_data.total_amount,
               payment_method := checkout_data.payment_method,
               items_count := checkout_data.items.length,
               register_session_id := register_session.id })

/-- Shallow embedding of `close_register` (app/routers/cashier.py lines
463-514): find the open session, compute the expected amount via the model
method and the variance as counted minus expected, close the session and
report the reconciliation summary with its over/short/exact label. -/
def close_register (vendor_id : Nat) (closing_amount : Int) (db : CashierDB) :
    CashierDB × Except CashierError RegisterCloseSummary :=
  match findOpenRegister db vendor_id with
  | none => (db, .error .NoOpenRegister)
  | some open_register =>
    let expected_amount := open_register.calculate_expected_amount
    let variance := closing_amount - expected_amount
    let closed := { open_register with
      closing_amount := some closing_amount,
      expected_amount := some expected_amount,
      variance := some variance,
      status := RegisterStatus.CLOSED }
    let registers2 := db.registers.map (fun r =>
      if r.id == open_register.id then closed else r)
    (⟨db.vendors, db.products, registers2, db.orders, db.order_items,
      db.next_order_id⟩,
     .ok { session_id := open_register.id,
           opening_float := open_register.opening_float,
           total_sales := open_register.total_sales,
           cash_sales := open_register.total_cash_sales,
           expected_cash := expected_amount,
           actual_cash := closing_amount,
           variance := variance,
           variance_status :=
             if variance > 0 then "over"
             else if variance < 0 then "short"
             else "exact",
           transaction_count := open_register.transaction_count })

end CashierRouter

/-! ## Claims about the register ledger and cashier checkout -/

/-- Claim C6: for every open session, register close computes
expected = opening_float + total_cash_sales and
variance = closing_amount - expected, labelling a negative variance "short". -/
theorem claim_C6_register_close_variance (vendor_id : Nat) (closing : Int)
    (db : CashierDB) (reg : RegisterSession)
    (h : CashierRouter.findOpenRegister db vendor_id = some reg) :
    (CashierRouter.close_register vendor_id closing db).2 =
      .ok { session_id := reg.id,
            opening_float := reg.opening_float,
            total_sales := reg.total_sales,
            cash_sales := reg.total_cash_sales,
            expected_cash := reg.opening_float + reg.total_cash_sales,
            actual_cash := closing,
            variance := closing - (reg.opening_float + reg.total_cash_sales),
            variance_status :=
              if closing - (reg.opening_float + reg.total_cash_sales) > 0 then "over"
              else if closing - (reg.opening_float + reg.total_cash_sales) < 0 then "short"
              else "exact",
            transaction_count := reg.transaction_count } := by
  unfold CashierRouter.close_register
  rw [h]
  rfl

/-- An open register session with opening float 100 and cash sales 250. -/
def c6_reg : RegisterSession :=
  ⟨1, 1, "Main Register", "Asha", 100, none, none, none, 250, 250, 0, 0, 3,
   RegisterStatus.OPEN⟩

/-- Database holding that open session for vendor 1. -/
def c6_db : CashierDB := ⟨[1], [], [c6_reg], [], [], 0⟩

/-- Concrete instance of claim C6: opening 100, cash sales 250, counted 340
give expected 350 and variance -10, reported "short". -/
theorem claim_C6_register_close_variance_witness :
    (CashierRouter.findOpenRegister c6_db 1 = some c6_reg) ∧
    ((CashierRouter.close_register 1 340 c6_db).2 =
      .ok { session_id := c6_reg.id,
            opening_float := c6_reg.opening_float,
            total_sales := c6_reg.total_sales,
            cash_sales := c6_reg.total_cash_sales,
            expected_cash := c6_reg.opening_float + c6_reg.total_cash_sales,
            actual_cash := 340,
            variance := 340 - (c6_reg.opening_float + c6_reg.total_cash_sales),
            variance_status :=
              if 340 - (c6_reg.opening_float + c6_reg.total_cash_sales) > 0 then "over"
              else if 340 - (c6_reg.opening_float + c6_reg.total_cash_sales) < 0 then "short"
              else "exact",
            transaction_count := c6_reg.transaction_count }) ∧
    c6_reg.opening_float + c6_reg.total_cash_sales = 350 ∧
    340 - (c6_reg.opening_float + c6_reg.total_cash_sales) = -10 ∧
    (if 340 - (c6_reg.opening_float + c6_reg.total_cash_sales) > 0 then "over"
     else if 340 - (c6_reg.opening_float + c6_reg.total_cash_sales) < 0 then "short"
     else "exact") = "short" :=
  ⟨rfl, claim_C6_register_close_variance 1 340 c6_db c6_reg rfl,
   by decide, by decide, by decide⟩

/-- The stock scan returns InsufficientStock when every line's product exists
and some line requests more than its product's stock. -/
theorem stockCheck_finds_short (products : List Product) :
    ∀ items : List CashierItem,
    (∀ item ∈ items, (products.find? (fun p => p.id == item.product_id)).isSome) →
    (∃ item ∈ items, ∃ p, products.find? (fun q => q.id == item.product_id) = some p ∧
        p.stock < (item.quantity : Int)) →
    ∃ pid avail req, CashierRouter.stockCheck products items =
      some (.InsufficientStock pid avail req) := by
  intro items
  induction items with
  | nil => intro _ hex; simp at hex
  | cons item rest ih =>
    intro hall hex
    have hsome := hall item (List.mem_cons_self _ _)
    obtain ⟨p, hp⟩ := Option.isSome_iff_exists.mp hsome
    simp only [CashierRouter.stockCheck, hp]
    by_cases hst : p.stock < (item.quantity : Int)
    · rw [if_pos hst]
      exact ⟨p.id, p.stock, item.quantity, rfl⟩
    · rw [if_neg hst]
      apply ih
      · intro it hit
        exact hall it (List.mem_cons_of_mem _ hit)
      · obtain ⟨it, hit, q2, hq, hqs⟩ := hex
        rcases List.mem_cons.mp hit with heq | hmem
        · subst heq
          rw [hp] at hq
          injection hq with hq2
          subst hq2
          exact absurd hqs hst
        · exact ⟨it, hmem, q2, hq, hqs⟩

/-- Claim C7: cashier checkout for an existing vendor fails with NoOpenRegister
before any write when no register session is open, and — with a register open
and every line's product existing — fails with InsufficientStock before any
write when some line requests more than the available stock; in both cases
the returned database is exactly the input database. -/
theorem claim_C7_cashier_prechecks (data : CashierCheckout) (db : CashierDB) :
    (data.vendor_id ∈ db.vendors →
      CashierRouter.findOpenRegister db data.vendor_id = none →
      CashierRouter.process_cashier_checkout data db = (db, .error .NoOpenRegister)) ∧
    (∀ reg, data.vendor_id ∈ db.vendors →
      CashierRouter.findOpenRegister db data.vendor_id = some reg →
      (∀ item ∈ data.items,
        (db.products.find? (fun p => p.id == item.product_id)).isSome) →
      (∃ item ∈ data.items, ∃ p,
        db.products.find? (fun q => q.id == item.product_id) = some p ∧
          p.stock < (item.quantity : Int)) →
      ∃ pid avail req, CashierRouter.process_cashier_checkout data db =
        (db, .error (.InsufficientStock pid avail req))) := by
  constructor
  · intro hv hnone
    have hb : db.vendors.contains data.vendor_id = true := by
      simpa using hv
    simp [CashierRouter.process_cashier_checkout, hb, hv, hnone]
  · intro reg hv hreg hall hex
    have hb : db.vendors.contains data.vendor_id = true := by
      simpa using hv
    obtain ⟨pid, avail, req, hsc⟩ := stockCheck_finds_short db.products data.items hall hex
    refine ⟨pid, avail, req, ?_⟩
    simp [CashierRouter.process_cashier_checkout, hb, hv, hreg, hsc]

/-- Checkout data for vendor 1: one line of product 2. -/
def c7_data1 : CashierCheckout := ⟨1, [⟨2, 1, 5, 5⟩], none, "cash", 0, 0, 5, 5⟩

/-- Vendor 1 exists but has no register session at all. -/
def c7_db1 : CashierDB := ⟨[1], [⟨2, "A", 1, some 5, 10⟩], [], [], [], 0⟩

/-- An open register for vendor 1. -/
def c7_reg : RegisterSession :=
  ⟨1, 1, "Main Register", "Asha", 0, none, none, none, 0, 0, 0, 0, 0,
   RegisterStatus.OPEN⟩

/-- Vendor 1 with an open register and a product with stock 1. -/
def c7_db2 : CashierDB := ⟨[1], [⟨2, "A", 1, some 5, 1⟩], [c7_reg], [], [], 0⟩

/-- Checkout data requesting 5 units of the stock-1 product. -/
def c7_data2 : CashierCheckout := ⟨1, [⟨2, 5, 3, 15⟩], none, "cash", 0, 0, 15, 15⟩

/-- Concrete instances of claim C7: no open register, and a line exceeding
stock, each rejected with the input database unchanged. -/
theorem claim_C7_cashier_prechecks_witness :
    (c7_data1.vendor_id ∈ c7_db1.vendors) ∧
    (CashierRouter.findOpenRegister c7_db1 c7_data1.vendor_id = none) ∧
    (CashierRouter.process_cashier_checkout c7_data1 c7_db1 =
      (c7_db1, .error .NoOpenRegister)) ∧
    (c7_data2.vendor_id ∈ c7_db2.vendors) ∧
    (CashierRouter.findOpenRegister c7_db2 c7_data2.vendor_id = some c7_reg) ∧
    (∀ item ∈ c7_data2.items,
      (c7_db2.products.find? (fun p => p.id == item.product_id)).isSome) ∧
    (∃ item ∈ c7_data2.items, ∃ p,
      c7_db2.products.find? (fun q => q.id == item.product_id) = some p ∧
        p.stock < (item.quantity : Int)) ∧
    (∃ pid avail req, CashierRouter.process_cashier_checkout c7_data2 c7_db2 =
      (c7_db2, .error (.InsufficientStock pid avail req))) :=
  ⟨by decide, rfl,
   (claim_C7_cashier_prechecks c7_data1 c7_db1).1 (by decide) rfl,
   by decide, rfl, by decide,
   ⟨⟨2, 5, 3, 15⟩, by decide, ⟨2, "A", 1, some 5, 1⟩, rfl, by decide⟩,
   (claim_C7_cashier_prechecks c7_data2 c7_db2).2 c7_reg (by decide) rfl (by decide)
     ⟨⟨2, 5, 3, 15⟩, by decide, ⟨2, "A", 1, some 5, 1⟩, rfl, by decide⟩⟩

/-- An open all-zero register session for vendor 1. -/
def c9_reg : RegisterSession :=
  ⟨1, 1, "Main Register", "Asha", 0, none, none, none, 0, 0, 0, 0, 0,
   RegisterStatus.OPEN⟩

/-- Vendor 1 with that open register and a product in stock. -/
def c9_db : CashierDB := ⟨[1], [⟨2, "A", 1, some 3, 10⟩], [c9_reg], [], [], 0⟩

/-- A checkout paying by "upi" (none of cash/card/digital) for a total of 0. -/
def c9_data : CashierCheckout := ⟨1, [⟨2, 1, 0, 0⟩], none, "upi", 0, 0, 0, 0⟩

/-- Claim C9 as stated is false: a checkout with unknown payment method "upi"
and total 0 succeeds, yet afterwards the bucket sum of the session equals
total_sales rather than being strictly below it. -/
theorem claim_C9_counterexample_zero_total :
    (c9_data.payment_method ≠ "cash" ∧ c9_data.payment_method ≠ "card" ∧
      c9_data.payment_method ≠ "digital") ∧
    (CashierRouter.process_cashier_checkout c9_data c9_db).2.isOk = true ∧
    (CashierRouter.process_cashier_checkout c9_data c9_db).1.registers.map
      (fun r => decide (r.total_cash_sales + r.total_card_sales +
        r.total_digital_sales < r.total_sales)) = [false] := by
  decide

/-- Claim C9, amended: a cashier checkout with a payment method outside
cash/card/digital that passes the vendor, register and stock checks still
succeeds; total_sales grows by total_amount and transaction_count by one
while all three buckets stay unchanged; hence, whenever total_amount is
positive and the bucket sum did not exceed total_sales beforehand, the
bucket sum is strictly below total_sales afterwards. -/
theorem claim_C9_amended_unknown_method (data : CashierCheckout) (db : CashierDB)
    (reg : RegisterSession)
    (hv : data.vendor_id ∈ db.vendors)
    (hr : CashierRouter.findOpenRegister db data.vendor_id = some reg)
    (hs : CashierRouter.stockCheck db.products data.items = none)
    (hm : data.payment_method ≠ "cash" ∧ data.payment_method ≠ "card" ∧
      data.payment_method ≠ "digital") :
    (CashierRouter.process_cashier_checkout data db).2.isOk = true ∧
    (CashierRouter.process_cashier_checkout data db).1.registers =
      db.registers.map (fun r => if r.id == reg.id then
        { reg with total_sales := reg.total_sales + data.total_amount,
                   transaction_count := reg.transaction_count + 1 }
      else r) ∧
    (0 < data.total_amount →
      reg.total_cash_sales + reg.total_card_sales + reg.total_digital_sales ≤
        reg.total_sales →
      reg.total_cash_sales + reg.total_card_sales + reg.total_digital_sales <
        reg.total_sales + data.total_amount) := by
  have hb : db.vendors.contains data.vendor_id = true := by
    simpa using hv
  have hm1 : (data.payment_method == "cash") = false := by
    simpa using hm.1
  have hm2 : (data.payment_method == "card") = false := by
    simpa using hm.2.1
  have hm3 : (data.payment_method == "digital") = false := by
    simpa using hm.2.2
  refine ⟨?_, ?_, ?_⟩
  · simp [CashierRouter.process_cashier_checkout, hb, hv, hr, hs, hm1, hm2, hm3,
      Except.isOk, Except.toBool]
  · simp [CashierRouter.process_cashier_checkout, hb, hv, hr, hs, hm1, hm2, hm3]
  · intro h1 h2
    omega

/-- An "upi" checkout of total 5 against the zeroed register. -/
def c9w_data : CashierCheckout := ⟨1, [⟨2, 1, 3, 3⟩], none, "upi", 0, 0, 3, 5⟩

/-- Concrete instance of amended claim C9: an "upi" sale of 5 leaves all
buckets at 0 while total_sales becomes 5. -/
theorem claim_C9_amended_unknown_method_witness :
    (c9w_data.vendor_id ∈ c9_db.vendors) ∧
    (CashierRouter.findOpenRegister c9_db c9w_data.vendor_id = some c9_reg) ∧
    (CashierRouter.stockCheck c9_db.products c9w_data.items = none) ∧
    (c9w_data.payment_method ≠ "cash" ∧ c9w_data.payment_method ≠ "card" ∧
      c9w_data.payment_method ≠ "digital") ∧
    ((CashierRouter.process_cashier_checkout c9w_data c9_db).2.isOk = true ∧
    (CashierRouter.process_cashier_checkout c9w_data c9_db).1.registers =
      c9_db.registers.map (fun r => if r.id == c9_reg.id then
        { c9_reg with total_sales := c9_reg.total_sales + c9w_data.total_amount,
                      transaction_count := c9_reg.transaction_count + 1 }
      else r) ∧
    (0 < c9w_data.total_amount →
      c9_reg.total_cash_sales + c9_reg.total_card_sales + c9_reg.total_digital_sales ≤
        c9_reg.total_sales →
      c9_reg.total_cash_sales + c9_reg.total_card_sales + c9_reg.total_digital_sales <
        c9_reg.total_sales + c9w_data.total_amount)) :=
  ⟨by decide, rfl, rfl, by decide,
   claim_C9_amended_unknown_method c9w_data c9_db c9_reg (by decide) rfl rfl (by decide)⟩

end Shop
